import Mathlib

/-!
Shallow embedding of the Milestone Progression Engine from the UserProgress
component of the Mentorque platform front-end: the status record, the fixed
five-call table, the ascending next-call scan with its two-level fallback,
the derived flags (isEligible, isBooked, isScheduled), the displayed
milestone checklist, the progress percentage, and the book-call guard.
-/

namespace Mentorque

/-- JavaScript truthiness of a nullable string field: `null`/absent and the
empty string are falsy, every other string is truthy. -/
def strTruthy : Option String → Bool
  | none => false
  | some s => !(s == "")

/-- The seven milestone keys appearing in the MILESTONES table and in the
per-call required lists. -/
inductive MilestoneKey where
  | orientation
  | resumeRebuilding
  | resumeConfirmed
  | portfolioBuildingAndConfirmed
  | techDistributionAndExtension
  | cheatSheetBuiltOut
  | hasAppliedEnoughJobs
deriving DecidableEq, Repr

/-- The UserStatus record fetched from the status endpoint. -/
structure UserStatus where
  id : String
  orientation : Bool
  resumeRebuilding : Bool
  eligibleForFirstMentorCall : Bool
  firstMentorCallCompletedAt : Option String
  resumeConfirmed : Bool
  portfolioBuildingAndConfirmed : Bool
  eligibleForSecondMentorCall : Bool
  secondMentorCallCompletedAt : Option String
  techDistributionAndExtension : Bool
  eligibleForThirdMentorCall : Bool
  thirdMentorCallCompletedAt : Option String
  cheatSheetBuiltOut : Bool
  hasAppliedEnoughJobs : Bool
  eligibleForFourthMentorCall : Bool
  fourthMentorCallCompletedAt : Option String
  finalReview : Bool
  eligibleForFifthMentorCall : Bool
  fifthMentorCallCompletedAt : Option String
deriving DecidableEq, Repr

/-- Dynamic field lookup `status[key]` for a milestone key. -/
def statusGet (s : UserStatus) : MilestoneKey → Bool
  | .orientation => s.orientation
  | .resumeRebuilding => s.resumeRebuilding
  | .resumeConfirmed => s.resumeConfirmed
  | .portfolioBuildingAndConfirmed => s.portfolioBuildingAndConfirmed
  | .techDistributionAndExtension => s.techDistributionAndExtension
  | .cheatSheetBuiltOut => s.cheatSheetBuiltOut
  | .hasAppliedEnoughJobs => s.hasAppliedEnoughJobs

/-- A milestone entry: key, display label and icon name. -/
structure Milestone where
  key : MilestoneKey
  label : String
  icon : String
deriving DecidableEq, Repr

/-- The MILESTONES table used for the overall progress percentage. -/
def MILESTONES : List Milestone :=
  [⟨.orientation, "Orientation Complete", "Rocket"⟩,
   ⟨.resumeRebuilding, "Resume Rebuilt", "FileText"⟩,
   ⟨.resumeConfirmed, "Resume Confirmed", "Award"⟩,
   ⟨.portfolioBuildingAndConfirmed, "Portfolio Ready", "Award"⟩,
   ⟨.techDistributionAndExtension, "Tech Stack Defined", "Zap"⟩,
   ⟨.cheatSheetBuiltOut, "Cheat Sheet Created", "BookOpen"⟩,
   ⟨.hasAppliedEnoughJobs, "Jobs Applied", "Target"⟩]

/-- A scheduled call supplied from outside the engine. -/
structure ScheduledCall where
  callNumber : Nat
  scheduledAt : String
  googleMeetLink : Option String
deriving DecidableEq, Repr

/-- One entry of the five-call table built inside the useMemo. -/
structure Call where
  number : Nat
  label : String
  eligible : Bool
  completed : Option String
  required : List Milestone
deriving DecidableEq, Repr

/-- Stage 1 of the call table. -/
def call1 (s : UserStatus) : Call :=
  { number := 1
    label := "First Mentor Call"
    eligible := s.eligibleForFirstMentorCall
    completed := s.firstMentorCallCompletedAt
    required := [⟨.orientation, "Orientation Complete", "Rocket"⟩,
                 ⟨.resumeRebuilding, "Resume Rebuilt", "FileText"⟩] }

/-- Stage 2 of the call table. -/
def call2 (s : UserStatus) : Call :=
  { number := 2
    label := "Second Mentor Call"
    eligible := s.eligibleForSecondMentorCall
    completed := s.secondMentorCallCompletedAt
    required := [⟨.resumeConfirmed, "Resume Confirmed", "Award"⟩,
                 ⟨.portfolioBuildingAndConfirmed, "Portfolio Ready", "Award"⟩] }

/-- Stage 3 of the call table. -/
def call3 (s : UserStatus) : Call :=
  { number := 3
    label := "Third Mentor Call"
    eligible := s.eligibleForThirdMentorCall
    completed := s.thirdMentorCallCompletedAt
    required := [⟨.techDistributionAndExtension, "Tech Stack Defined", "Zap"⟩] }

/-- Stage 4 of the call table. -/
def call4 (s : UserStatus) : Call :=
  { number := 4
    label := "Fourth Mentor Call"
    eligible := s.eligibleForFourthMentorCall
    completed := s.fourthMentorCallCompletedAt
    required := [⟨.cheatSheetBuiltOut, "Cheat Sheet Created", "BookOpen"⟩,
                 ⟨.hasAppliedEnoughJobs, "Jobs Applied", "Target"⟩] }

/-- Stage 5 of the call table (no required milestones). -/
def call5 (s : UserStatus) : Call :=
  { number := 5
    label := "Fifth Mentor Call"
    eligible := s.eligibleForFifthMentorCall
    completed := s.fifthMentorCallCompletedAt
    required := [] }

/-- The full five-call table, in ascending stage order. -/
def calls (s : UserStatus) : List Call :=
  [call1 s, call2 s, call3 s, call4 s, call5 s]

/-- The nextCall object: the chosen call, plus the `requiredMilestones`
field that some selection branches add (absent on the others, matching the
dynamic shape of the source object). -/
structure NextCall where
  call : Call
  requiredMilestones : Option (List Milestone)
deriving DecidableEq, Repr

/-- `call.required.every(r => status[r.key])`. -/
def allRequiredDone (s : UserStatus) (c : Call) : Bool :=
  c.required.all fun r => statusGet s r.key

/-- The ascending scan over the call table: skip completed stages, skip
scheduled stages, then select through the first of the three branches that
fires; when none fires the loop moves on to the next stage. -/
def scanCalls (s : UserStatus) (sched : List Nat) : List Call → Option NextCall
  | [] => none
  | c :: rest =>
    if strTruthy c.completed then scanCalls s sched rest
    else if sched.contains c.number then scanCalls s sched rest
    else if c.eligible && c.required.length == 0 then some ⟨c, none⟩
    else if c.eligible && allRequiredDone s c then some ⟨c, some []⟩
    else if !c.eligible && decide (0 < c.required.length) then
      some ⟨{ c with eligible := false }, some c.required⟩
    else scanCalls s sched rest

/-- The fallback when the scan selected nothing: the first stage that is
neither completed nor scheduled, and otherwise the first stage of the table
unconditionally. -/
def fallbackCall (s : UserStatus) (sched : List Nat) : Call :=
  match (calls s).find? (fun c => !strTruthy c.completed && !sched.contains c.number) with
  | some c => c
  | none => call1 s

/-- The selected next call: the scan result, or the fallback with no
`requiredMilestones` field. -/
def computeNextCallCore (s : UserStatus) (sched : List Nat) : NextCall :=
  match scanCalls s sched (calls s) with
  | some nc => nc
  | none => ⟨fallbackCall s sched, none⟩

/-- One entry of the displayed milestone checklist. -/
structure CurrentMilestone where
  id : MilestoneKey
  label : String
  icon : String
  completed : Bool
deriving DecidableEq, Repr

/-- `nextCall.requiredMilestones || nextCall.required || []`; the two
fields are always arrays when present, and arrays are truthy in JavaScript
even when empty, so the first present field wins. -/
def displayedRequired (nc : NextCall) : List Milestone :=
  match nc.requiredMilestones with
  | some l => l
  | none => nc.call.required

/-- The displayed checklist: each milestone of the displayed required list
annotated with its current completion flag. -/
def currentMilestonesOf (s : UserStatus) (nc : NextCall) : List CurrentMilestone :=
  (displayedRequired nc).map fun m => ⟨m.key, m.label, m.icon, statusGet s m.key⟩

/-- `nextCall.eligible && nextCall.requiredMilestones?.length === 0`: when
`requiredMilestones` is absent, optional chaining yields `undefined`, and
`undefined === 0` is false. -/
def isEligibleOf (nc : NextCall) : Bool :=
  nc.call.eligible &&
    (match nc.requiredMilestones with
     | some l => l.length == 0
     | none => false)

/-- Number of MILESTONES entries whose status flag is set. -/
def completedMilestonesCount (s : UserStatus) : Nat :=
  (MILESTONES.filter fun m => statusGet s m.key).length

/-- `(completedMilestones / MILESTONES.length) * 100`, as an exact rational. -/
def progressPercentageOf (s : UserStatus) : ℚ :=
  ((completedMilestonesCount s : ℚ) / (MILESTONES.length : ℚ)) * 100

/-- The record returned by the useMemo computation. -/
structure EngineResult where
  currentMilestones : List CurrentMilestone
  nextMentorCall : Option NextCall
  progressPercentage : ℚ
  isEligible : Bool
  isBooked : Bool
  isScheduled : Bool
deriving DecidableEq, Repr

/-- The engine on a non-null status: select the next call, then derive the
checklist, the progress percentage and the three flags. -/
def computeNextCall (s : UserStatus) (sched : List Nat) : EngineResult :=
  let nc := computeNextCallCore s sched
  { currentMilestones := currentMilestonesOf s nc
    nextMentorCall := some nc
    progressPercentage := progressPercentageOf s
    isEligible := isEligibleOf nc
    isBooked := strTruthy nc.call.completed
    isScheduled := sched.contains nc.call.number }

/-- The full useMemo body, including the null-status guard. -/
def useMemoResult : Option UserStatus → List Nat → EngineResult
  | none, _ => ⟨[], none, 0, false, false, false⟩
  | some s, sched => computeNextCall s sched

/-- Environment of a handleBookCall invocation: the auth token (if any)
and whether the POST response is ok. -/
structure BookEnv where
  token : Option String
  responseOk : Bool
  errorMessage : Option String
deriving DecidableEq, Repr

/-- Observable outcome of a handleBookCall invocation: the call numbers
POSTed to the book-call endpoint, whether the status was re-fetched, the
booking flag after the run, and the toasts shown. -/
structure BookOutcome where
  postedCallNumbers : List Nat
  reloadedStatus : Bool
  bookingAfter : Bool
  toasts : List String
deriving DecidableEq, Repr

/-- The handleBookCall callback: the guard returns immediately when there
is no next call, the engine says not eligible, or a booking is already in
flight; otherwise it POSTs the selected call number and the finally block
clears the booking flag. -/
def handleBookCall (nextMentorCall : Option NextCall) (isEligible booking : Bool)
    (env : BookEnv) : BookOutcome :=
  match nextMentorCall with
  | none => ⟨[], false, booking, []⟩
  | some nc =>
    if !isEligible || booking then ⟨[], false, booking, []⟩
    else
      match env.token with
      | none => ⟨[], false, false, ["Not authenticated"]⟩
      | some _ =>
        if env.responseOk then
          ⟨[nc.call.number], true, false, ["Call booked successfully!"]⟩
        else
          ⟨[nc.call.number], false, false, [env.errorMessage.getD "Failed to book call"]⟩

/-- A status with every flag false and no completion timestamps. -/
def sAllFalse : UserStatus :=
  { id := "u"
    orientation := false
    resumeRebuilding := false
    eligibleForFirstMentorCall := false
    firstMentorCallCompletedAt := none
    resumeConfirmed := false
    portfolioBuildingAndConfirmed := false
    eligibleForSecondMentorCall := false
    secondMentorCallCompletedAt := none
    techDistributionAndExtension := false
    eligibleForThirdMentorCall := false
    thirdMentorCallCompletedAt := none
    cheatSheetBuiltOut := false
    hasAppliedEnoughJobs := false
    eligibleForFourthMentorCall := false
    fourthMentorCallCompletedAt := none
    finalReview := false
    eligibleForFifthMentorCall := false
    fifthMentorCallCompletedAt := none }

/-- Stage 1 eligible but with both of its required milestones unmet. -/
def sC1 : UserStatus := { sAllFalse with eligibleForFirstMentorCall := true }

/-- Stage 1 eligible with both of its required milestones met. -/
def sC7 : UserStatus :=
  { sAllFalse with
    eligibleForFirstMentorCall := true
    orientation := true
    resumeRebuilding := true }

/-- All five stages completed. -/
def sAllDone : UserStatus :=
  { sAllFalse with
    firstMentorCallCompletedAt := some "2024-01-01T00:00:00Z"
    secondMentorCallCompletedAt := some "2024-02-01T00:00:00Z"
    thirdMentorCallCompletedAt := some "2024-03-01T00:00:00Z"
    fourthMentorCallCompletedAt := some "2024-04-01T00:00:00Z"
    fifthMentorCallCompletedAt := some "2024-05-01T00:00:00Z" }

/-- Stages 1 to 4 completed, stage 5 eligible and not completed. -/
def sC2 : UserStatus :=
  { sAllDone with
    fifthMentorCallCompletedAt := none
    eligibleForFifthMentorCall := true }

/-- Modelled from the spec words for the refinement claim about the
progress percentage: the number of the seven milestone flags set to true,
counted directly over the status record. -/
def specMilestonesTrueCount (s : UserStatus) : Nat :=
  (if s.orientation then 1 else 0) + (if s.resumeRebuilding then 1 else 0) +
  (if s.resumeConfirmed then 1 else 0) + (if s.portfolioBuildingAndConfirmed then 1 else 0) +
  (if s.techDistributionAndExtension then 1 else 0) + (if s.cheatSheetBuiltOut then 1 else 0) +
  (if s.hasAppliedEnoughJobs then 1 else 0)

/-! ## Helper lemmas about the scan -/

/-- One step of the scan, as a plain if-chain. -/
theorem scanCalls_cons (s : UserStatus) (sched : List Nat) (c : Call) (rest : List Call) :
    scanCalls s sched (c :: rest) =
      if strTruthy c.completed then scanCalls s sched rest
      else if sched.contains c.number then scanCalls s sched rest
      else if c.eligible && c.required.length == 0 then some ⟨c, none⟩
      else if c.eligible && allRequiredDone s c then some ⟨c, some []⟩
      else if !c.eligible && decide (0 < c.required.length) then
        some ⟨{ c with eligible := false }, some c.required⟩
      else scanCalls s sched rest := rfl

/-- Scan step: a completed head is skipped. -/
theorem scanCalls_skip_completed (s : UserStatus) (sched : List Nat) (c : Call)
    (rest : List Call) (h1 : strTruthy c.completed = true) :
    scanCalls s sched (c :: rest) = scanCalls s sched rest := by
  rw [scanCalls_cons, h1]
  simp

/-- Scan step: a scheduled head is skipped. -/
theorem scanCalls_skip_scheduled (s : UserStatus) (sched : List Nat) (c : Call)
    (rest : List Call) (h1 : strTruthy c.completed = false)
    (h2 : sched.contains c.number = true) :
    scanCalls s sched (c :: rest) = scanCalls s sched rest := by
  rw [scanCalls_cons, h1, h2]
  simp

/-- Scan step: an eligible head with unmet non-empty requirements fires no
branch, so the scan moves on to the next stage. -/
theorem scanCalls_skip_unmet (s : UserStatus) (sched : List Nat) (c : Call)
    (rest : List Call) (h1 : strTruthy c.completed = false)
    (h2 : sched.contains c.number = false) (h3 : c.eligible = true)
    (h4 : allRequiredDone s c = false) (h5 : 0 < c.required.length) :
    scanCalls s sched (c :: rest) = scanCalls s sched rest := by
  have hlen : (c.required.length == 0) = false := by
    simp only [beq_eq_false_iff_ne, ne_eq]
    omega
  rw [scanCalls_cons, h1, h2, h3, h4, hlen]
  simp

/-- Scan step: a non-completed, non-scheduled, eligible head with no
required milestones is selected with the requiredMilestones field absent. -/
theorem scanCalls_select_noreq (s : UserStatus) (sched : List Nat) (c : Call)
    (rest : List Call) (h1 : strTruthy c.completed = false)
    (h2 : sched.contains c.number = false) (h3 : c.eligible = true)
    (h4 : c.required.length = 0) :
    scanCalls s sched (c :: rest) = some ⟨c, none⟩ := by
  rw [scanCalls_cons, h1, h2, h3, h4]
  simp

/-- Scan step: a non-completed, non-scheduled, eligible head with all of
its non-empty requirements met is selected with an empty requiredMilestones
field. -/
theorem scanCalls_select_allmet (s : UserStatus) (sched : List Nat) (c : Call)
    (rest : List Call) (h1 : strTruthy c.completed = false)
    (h2 : sched.contains c.number = false) (h3 : c.eligible = true)
    (h4 : allRequiredDone s c = true) (h5 : 0 < c.required.length) :
    scanCalls s sched (c :: rest) = some ⟨c, some []⟩ := by
  have hlen : (c.required.length == 0) = false := by
    simp only [beq_eq_false_iff_ne, ne_eq]
    omega
  rw [scanCalls_cons, h1, h2, h3, h4, hlen]
  simp

/-- Scan step: a non-completed, non-scheduled, ineligible head with a
non-empty required list is selected as the working-toward stage. -/
theorem scanCalls_select_working (s : UserStatus) (sched : List Nat) (c : Call)
    (rest : List Call) (h1 : strTruthy c.completed = false)
    (h2 : sched.contains c.number = false) (h3 : c.eligible = false)
    (h4 : 0 < c.required.length) :
    scanCalls s sched (c :: rest) =
      some ⟨{ c with eligible := false }, some c.required⟩ := by
  rw [scanCalls_cons, h1, h2, h3]
  simp [h4]

/-- Any call selected by the scan has a falsy completion timestamp. -/
theorem scanCalls_not_completed (s : UserStatus) (sched : List Nat) :
    ∀ (l : List Call) (nc : NextCall),
      scanCalls s sched l = some nc → strTruthy nc.call.completed = false := by
  intro l
  induction l with
  | nil => intro nc h; simp [scanCalls] at h
  | cons c rest ih =>
    intro nc h
    simp only [scanCalls] at h
    split_ifs at h with h1 h2 h3 h4 h5
    · exact ih nc h
    · exact ih nc h
    · simp only [Option.some.injEq] at h
      subst h
      simpa using h1
    · simp only [Option.some.injEq] at h
      subst h
      simpa using h1
    · simp only [Option.some.injEq] at h
      subst h
      simpa using h1
    · exact ih nc h

/-- Any call selected by the scan has a number outside the scheduled set. -/
theorem scanCalls_not_scheduled (s : UserStatus) (sched : List Nat) :
    ∀ (l : List Call) (nc : NextCall),
      scanCalls s sched l = some nc → sched.contains nc.call.number = false := by
  intro l
  induction l with
  | nil => intro nc h; simp [scanCalls] at h
  | cons c rest ih =>
    intro nc h
    simp only [scanCalls] at h
    split_ifs at h with h1 h2 h3 h4 h5
    · exact ih nc h
    · exact ih nc h
    · simp only [Option.some.injEq] at h
      subst h
      simpa using h2
    · simp only [Option.some.injEq] at h
      subst h
      simpa using h2
    · simp only [Option.some.injEq] at h
      subst h
      simpa using h2
    · exact ih nc h

/-- The scan only ever selects a call number present in the scanned list. -/
theorem scanCalls_number_mem (s : UserStatus) (sched : List Nat) :
    ∀ (l : List Call) (nc : NextCall),
      scanCalls s sched l = some nc → nc.call.number ∈ l.map Call.number := by
  intro l
  induction l with
  | nil => intro nc h; simp [scanCalls] at h
  | cons c rest ih =>
    intro nc h
    simp only [scanCalls] at h
    split_ifs at h with h1 h2 h3 h4 h5
    · exact List.mem_cons_of_mem _ (ih nc h)
    · exact List.mem_cons_of_mem _ (ih nc h)
    · simp only [Option.some.injEq] at h
      subst h
      simp
    · simp only [Option.some.injEq] at h
      subst h
      simp
    · simp only [Option.some.injEq] at h
      subst h
      simp
    · exact List.mem_cons_of_mem _ (ih nc h)

/-- The call numbers of the table, in order. -/
theorem calls_map_number (s : UserStatus) :
    (calls s).map Call.number = [1, 2, 3, 4, 5] := rfl

/-- The filter-based milestone count of the source equals the direct count
of the seven status flags. -/
theorem completedMilestonesCount_eq (s : UserStatus) :
    completedMilestonesCount s = specMilestonesTrueCount s := by
  rcases s with ⟨sid, o, rr, e1, k1, rc, pb, e2, k2, td, e3, k3, cs, aj, e4, k4, fr, e5, k5⟩
  cases o <;> cases rr <;> cases rc <;> cases pb <;> cases td <;> cases cs <;> cases aj <;> rfl

/-! ## Claim theorems -/

/-- C3: for every non-null well-formed status and any scheduled list, the
next-call computation is a total function (shallow embedding of pure,
exception-free code): the useMemo result on a non-null status is exactly
the engine output, the selected next call is never null, and the selected
stage is exactly one of the five stages of the table. -/
theorem engine_total_c3 (s : UserStatus) (sched : List Nat) :
    useMemoResult (some s) sched = computeNextCall s sched ∧
    (computeNextCall s sched).nextMentorCall = some (computeNextCallCore s sched) ∧
    (computeNextCallCore s sched).call.number ∈ [1, 2, 3, 4, 5] := by
  refine ⟨rfl, rfl, ?_⟩
  rw [← calls_map_number s]
  unfold computeNextCallCore
  cases hs : scanCalls s sched (calls s) with
  | some nc => exact scanCalls_number_mem s sched _ nc hs
  | none =>
    unfold fallbackCall
    cases hf : (calls s).find? (fun c => !strTruthy c.completed && !sched.contains c.number) with
    | some c =>
      simpa using List.mem_map_of_mem Call.number (List.mem_of_find?_eq_some hf)
    | none =>
      simp [calls_map_number, call1]

/-- C10: the book-call action never issues a booking request unless a next
call is selected, the engine says eligible, and no booking is in flight;
when the guard fails, handleBookCall returns immediately with no POST, no
status reload, no toast, and the booking flag unchanged. -/
theorem book_call_guard_c10 (nmc : Option NextCall) (isEligible booking : Bool)
    (env : BookEnv)
    (h : nmc = none ∨ isEligible = false ∨ booking = true) :
    handleBookCall nmc isEligible booking env = ⟨[], false, booking, []⟩ := by
  rcases h with h | h | h
  · subst h; rfl
  · subst h
    cases nmc with
    | none => rfl
    | some nc => simp [handleBookCall]
  · subst h
    cases nmc with
    | none => rfl
    | some nc => simp [handleBookCall]

/-- Witness for C10: a concrete guard failure (not eligible) yields the
no-op outcome even with a valid token and a next call selected. -/
theorem book_call_guard_c10_witness :
    ((some (⟨call1 sC7, some []⟩ : NextCall) = none ∨ (false : Bool) = false ∨
        (false : Bool) = true) ∧
      handleBookCall (some ⟨call1 sC7, some []⟩) false false ⟨some "token-abc", true, none⟩ =
        ⟨[], false, false, []⟩) :=
  ⟨Or.inr (Or.inl rfl),
   book_call_guard_c10 (some ⟨call1 sC7, some []⟩) false false ⟨some "token-abc", true, none⟩
     (Or.inr (Or.inl rfl))⟩

/-- C6: whenever stage 1 is incomplete, not scheduled, and ineligible, the
engine selects stage 1 as the working-toward stage with exactly the two
stage-1 milestones (orientation then resumeRebuilding) as checklist, each
annotated with its current boolean value, and isEligible is false. -/
theorem stage1_working_toward_c6 (s : UserStatus) (sched : List Nat)
    (h1 : strTruthy s.firstMentorCallCompletedAt = false)
    (h2 : sched.contains 1 = false)
    (h3 : s.eligibleForFirstMentorCall = false) :
    ((computeNextCall s sched).nextMentorCall.map fun nc => nc.call.number) = some 1 ∧
    (computeNextCall s sched).currentMilestones =
      [⟨.orientation, "Orientation Complete", "Rocket", s.orientation⟩,
       ⟨.resumeRebuilding, "Resume Rebuilt", "FileText", s.resumeRebuilding⟩] ∧
    (computeNextCall s sched).isEligible = false := by
  have hscan : scanCalls s sched (calls s) =
      some ⟨{ call1 s with eligible := false }, some (call1 s).required⟩ :=
    scanCalls_select_working s sched (call1 s) [call2 s, call3 s, call4 s, call5 s]
      h1 h2 h3 (by simp [call1])
  simp only [computeNextCall, computeNextCallCore, hscan]
  refine ⟨rfl, ?_, ?_⟩
  · simp [currentMilestonesOf, displayedRequired, call1, statusGet]
  · simp [isEligibleOf]

/-- Witness for C6: the all-false status selects stage 1 working toward
its two milestones, both unmet. -/
theorem stage1_working_toward_c6_witness :
    (strTruthy sAllFalse.firstMentorCallCompletedAt = false ∧
      (([] : List Nat).contains 1) = false ∧
      sAllFalse.eligibleForFirstMentorCall = false) ∧
    (((computeNextCall sAllFalse []).nextMentorCall.map fun nc => nc.call.number) = some 1 ∧
      (computeNextCall sAllFalse []).currentMilestones =
        [⟨.orientation, "Orientation Complete", "Rocket", sAllFalse.orientation⟩,
         ⟨.resumeRebuilding, "Resume Rebuilt", "FileText", sAllFalse.resumeRebuilding⟩] ∧
      (computeNextCall sAllFalse []).isEligible = false) :=
  ⟨⟨by decide, by decide, by decide⟩,
   stage1_working_toward_c6 sAllFalse [] (by decide) (by decide) (by decide)⟩

/-- C7: whenever stage 1 is incomplete, not scheduled, eligible, and both
stage-1 milestones are true, the engine selects stage 1 with an empty
checklist and isEligible = true. -/
theorem stage1_ready_c7 (s : UserStatus) (sched : List Nat)
    (h1 : strTruthy s.firstMentorCallCompletedAt = false)
    (h2 : sched.contains 1 = false)
    (h3 : s.eligibleForFirstMentorCall = true)
    (h4 : s.orientation = true)
    (h5 : s.resumeRebuilding = true) :
    ((computeNextCall s sched).nextMentorCall.map fun nc => nc.call.number) = some 1 ∧
    (computeNextCall s sched).currentMilestones = [] ∧
    (computeNextCall s sched).isEligible = true := by
  have hscan : scanCalls s sched (calls s) = some ⟨call1 s, some []⟩ :=
    scanCalls_select_allmet s sched (call1 s) [call2 s, call3 s, call4 s, call5 s]
      h1 h2 h3 (by simp [allRequiredDone, call1, statusGet, h4, h5]) (by simp [call1])
  simp only [computeNextCall, computeNextCallCore, hscan]
  refine ⟨rfl, rfl, ?_⟩
  simp [isEligibleOf, call1, h3]

/-- Witness for C7: the concrete status with stage 1 eligible and both
stage-1 milestones met yields stage 1, empty checklist, isEligible true. -/
theorem stage1_ready_c7_witness :
    (strTruthy sC7.firstMentorCallCompletedAt = false ∧
      (([] : List Nat).contains 1) = false ∧
      sC7.eligibleForFirstMentorCall = true ∧
      sC7.orientation = true ∧ sC7.resumeRebuilding = true) ∧
    (((computeNextCall sC7 []).nextMentorCall.map fun nc => nc.call.number) = some 1 ∧
      (computeNextCall sC7 []).currentMilestones = [] ∧
      (computeNextCall sC7 []).isEligible = true) :=
  ⟨⟨by decide, by decide, by decide, by decide, by decide⟩,
   stage1_ready_c7 sC7 [] (by decide) (by decide) (by decide) (by decide) (by decide)⟩

/-- C1 (amended): the ascending scan stops at the first non-completed,
non-scheduled stage only when one of the three selection branches fires; in
particular, when that stage is ineligible with a non-empty required list it
is selected as the working-toward stage with its required milestones as
checklist, but when that stage is eligible with unmet required milestones
the scan continues past it to the next stage. -/
theorem scan_branch_c1 (s : UserStatus) (sched : List Nat) (c : Call) (rest : List Call) :
    (strTruthy c.completed = false → sched.contains c.number = false →
      c.eligible = false → 0 < c.required.length →
      scanCalls s sched (c :: rest) =
        some ⟨{ c with eligible := false }, some c.required⟩) ∧
    (strTruthy c.completed = false → sched.contains c.number = false →
      c.eligible = true → allRequiredDone s c = false → 0 < c.required.length →
      scanCalls s sched (c :: rest) = scanCalls s sched rest) := by
  constructor
  · intro h1 h2 h3 h4
    exact scanCalls_select_working s sched c rest h1 h2 h3 h4
  · intro h1 h2 h3 h4 h5
    exact scanCalls_skip_unmet s sched c rest h1 h2 h3 h4 h5

/-- Counterexample to C1 as stated: with stage 1 eligible but its
milestones unmet, stage 1 is the first non-completed, non-scheduled stage,
yet the engine scans past it and selects stage 2. -/
theorem scan_lookahead_counterexample_c1 :
    strTruthy (call1 sC1).completed = false ∧
    (([] : List Nat).contains (call1 sC1).number) = false ∧
    ((computeNextCall sC1 []).nextMentorCall.map fun nc => nc.call.number) = some 2 := by
  decide

/-- Witness for C1 (amended): both branches at concrete inputs — the
working-toward selection at stage 2 of sC1, and the continue-past step at
stage 1 of sC1. -/
theorem scan_branch_c1_witness :
    (strTruthy (call2 sC1).completed = false ∧
      (([] : List Nat).contains (call2 sC1).number) = false ∧
      (call2 sC1).eligible = false ∧ 0 < (call2 sC1).required.length ∧
      scanCalls sC1 [] [call2 sC1] =
        some ⟨{ call2 sC1 with eligible := false }, some (call2 sC1).required⟩) ∧
    (strTruthy (call1 sC1).completed = false ∧
      (([] : List Nat).contains (call1 sC1).number) = false ∧
      (call1 sC1).eligible = true ∧ allRequiredDone sC1 (call1 sC1) = false ∧
      0 < (call1 sC1).required.length ∧
      scanCalls sC1 [] (call1 sC1 :: [call2 sC1]) = scanCalls sC1 [] [call2 sC1]) :=
  ⟨⟨by decide, by decide, by decide, by decide,
    (scan_branch_c1 sC1 [] (call2 sC1) []).1 (by decide) (by decide) (by decide) (by decide)⟩,
   ⟨by decide, by decide, by decide, by decide, by decide,
    (scan_branch_c1 sC1 [] (call1 sC1) [call2 sC1]).2 (by decide) (by decide) (by decide)
      (by decide) (by decide)⟩⟩

/-- C2 (divergence at the failing input): with stages 1 to 4 completed and
stage 5 eligible, the engine selects stage 5 whose eligible flag is true
and whose displayed checklist is empty, yet computes isEligible = false,
because the no-requirements branch leaves the requiredMilestones field
absent and absent-field optional chaining never compares equal to 0. -/
theorem stage5_eligible_bug_c2 :
    ((computeNextCall sC2 []).nextMentorCall.map fun nc => nc.call.number) = some 5 ∧
    ((computeNextCall sC2 []).nextMentorCall.map fun nc => nc.call.eligible) = some true ∧
    (computeNextCall sC2 []).currentMilestones = [] ∧
    (computeNextCall sC2 []).isEligible = false := by
  decide

/-- C9: whenever the engine output has isEligible = true, the selected
stage is neither scheduled nor booked: isScheduled and isBooked are both
false. -/
theorem eligible_excludes_scheduled_booked_c9 (s : UserStatus) (sched : List Nat)
    (h : (computeNextCall s sched).isEligible = true) :
    (computeNextCall s sched).isScheduled = false ∧
    (computeNextCall s sched).isBooked = false := by
  simp only [computeNextCall] at h ⊢
  cases hs : scanCalls s sched (calls s) with
  | some nc =>
    have hcore : computeNextCallCore s sched = nc := by
      unfold computeNextCallCore
      rw [hs]
    rw [hcore] at h ⊢
    exact ⟨scanCalls_not_scheduled s sched _ nc hs, scanCalls_not_completed s sched _ nc hs⟩
  | none =>
    have hcore : computeNextCallCore s sched = ⟨fallbackCall s sched, none⟩ := by
      unfold computeNextCallCore
      rw [hs]
    rw [hcore] at h
    simp [isEligibleOf] at h

/-- Witness for C9: at the concrete ready-to-book status sC7 the engine
has isEligible = true and the theorem yields isScheduled = isBooked = false. -/
theorem eligible_excludes_scheduled_booked_c9_witness :
    (computeNextCall sC7 []).isEligible = true ∧
    ((computeNextCall sC7 []).isScheduled = false ∧
      (computeNextCall sC7 []).isBooked = false) :=
  ⟨by decide, eligible_excludes_scheduled_booked_c9 sC7 [] (by decide)⟩

/-- C4: when all five stages are completed the engine falls back to stage 1
with isBooked = true; in general isBooked equals the truthiness of the
selected stage's completion timestamp, and isBooked can be true only
through the unconditional fallback to stage 1, since both the scan and the
first fallback exclude completed stages. -/
theorem all_completed_fallback_c4 (s : UserStatus) (sched : List Nat) :
    ((strTruthy s.firstMentorCallCompletedAt = true ∧
      strTruthy s.secondMentorCallCompletedAt = true ∧
      strTruthy s.thirdMentorCallCompletedAt = true ∧
      strTruthy s.fourthMentorCallCompletedAt = true ∧
      strTruthy s.fifthMentorCallCompletedAt = true) →
      (computeNextCallCore s sched).call.number = 1 ∧
      (computeNextCall s sched).isBooked = true) ∧
    (computeNextCall s sched).isBooked =
      strTruthy (computeNextCallCore s sched).call.completed ∧
    ((computeNextCall s sched).isBooked = true →
      scanCalls s sched (calls s) = none ∧
      computeNextCallCore s sched = ⟨call1 s, none⟩) := by
  have hbooked : (computeNextCall s sched).isBooked =
      strTruthy (computeNextCallCore s sched).call.completed := rfl
  refine ⟨?_, hbooked, ?_⟩
  · rintro ⟨k1, k2, k3, k4, k5⟩
    have hscan : scanCalls s sched (calls s) = none := by
      show scanCalls s sched [call1 s, call2 s, call3 s, call4 s, call5 s] = none
      rw [scanCalls_skip_completed s sched (call1 s) _ k1,
        scanCalls_skip_completed s sched (call2 s) _ k2,
        scanCalls_skip_completed s sched (call3 s) _ k3,
        scanCalls_skip_completed s sched (call4 s) _ k4,
        scanCalls_skip_completed s sched (call5 s) _ k5]
      rfl
    have hfind : (calls s).find?
        (fun c => !strTruthy c.completed && !sched.contains c.number) = none := by
      simp [calls, call1, call2, call3, call4, call5, List.find?, k1, k2, k3, k4, k5]
    have hcore : computeNextCallCore s sched = ⟨call1 s, none⟩ := by
      unfold computeNextCallCore
      rw [hscan]
      unfold fallbackCall
      rw [hfind]
    refine ⟨by rw [hcore]; rfl, ?_⟩
    rw [hbooked, hcore]
    exact k1
  · intro hb
    cases hs : scanCalls s sched (calls s) with
    | some nc =>
      exfalso
      have hcore : computeNextCallCore s sched = nc := by
        unfold computeNextCallCore
        rw [hs]
      rw [hbooked, hcore, scanCalls_not_completed s sched _ nc hs] at hb
      exact Bool.false_ne_true hb
    | none =>
      refine ⟨rfl, ?_⟩
      unfold computeNextCallCore
      rw [hs]
      cases hf : (calls s).find?
          (fun c => !strTruthy c.completed && !sched.contains c.number) with
      | some c =>
        exfalso
        have hcore : computeNextCallCore s sched = ⟨c, none⟩ := by
          unfold computeNextCallCore
          rw [hs]
          unfold fallbackCall
          rw [hf]
        have hp := List.find?_some hf
        simp only [Bool.and_eq_true, Bool.not_eq_true'] at hp
        rw [hbooked, hcore, hp.1] at hb
        exact Bool.false_ne_true hb
      | none =>
        unfold fallbackCall
        rw [hf]

/-- Witness for C4: with every stage completed, the engine selects stage 1
with isBooked = true, and that run is indeed on the fallback path. -/
theorem all_completed_fallback_c4_witness :
    (strTruthy sAllDone.firstMentorCallCompletedAt = true ∧
      strTruthy sAllDone.secondMentorCallCompletedAt = true ∧
      strTruthy sAllDone.thirdMentorCallCompletedAt = true ∧
      strTruthy sAllDone.fourthMentorCallCompletedAt = true ∧
      strTruthy sAllDone.fifthMentorCallCompletedAt = true) ∧
    ((computeNextCallCore sAllDone []).call.number = 1 ∧
      (computeNextCall sAllDone []).isBooked = true) ∧
    (scanCalls sAllDone [] (calls sAllDone) = none ∧
      computeNextCallCore sAllDone [] = ⟨call1 sAllDone, none⟩) :=
  ⟨⟨by decide, by decide, by decide, by decide, by decide⟩,
   (all_completed_fallback_c4 sAllDone []).1
     ⟨by decide, by decide, by decide, by decide, by decide⟩,
   (all_completed_fallback_c4 sAllDone []).2.2 (by decide)⟩

/-- C5: the computed progress percentage is exactly the number of the
seven milestone flags set to true, divided by 7 and scaled to 100,
independent of the stage structure; it is monotonically non-decreasing as
milestone flags flip from false to true with the rest unchanged, and
recomputation on unchanged input is the identical value. -/
theorem progress_percentage_c5 (s t : UserStatus) (sched : List Nat) :
    (computeNextCall s sched).progressPercentage =
      (specMilestonesTrueCount s : ℚ) / 7 * 100 ∧
    ((s.orientation = true → t.orientation = true) →
      (s.resumeRebuilding = true → t.resumeRebuilding = true) →
      (s.resumeConfirmed = true → t.resumeConfirmed = true) →
      (s.portfolioBuildingAndConfirmed = true → t.portfolioBuildingAndConfirmed = true) →
      (s.techDistributionAndExtension = true → t.techDistributionAndExtension = true) →
      (s.cheatSheetBuiltOut = true → t.cheatSheetBuiltOut = true) →
      (s.hasAppliedEnoughJobs = true → t.hasAppliedEnoughJobs = true) →
      (computeNextCall s sched).progressPercentage ≤
        (computeNextCall t sched).progressPercentage) ∧
    computeNextCall s sched = computeNextCall s sched := by
  have hpp : ∀ u : UserStatus, (computeNextCall u sched).progressPercentage =
      (specMilestonesTrueCount u : ℚ) / 7 * 100 := by
    intro u
    show progressPercentageOf u = _
    rw [progressPercentageOf, completedMilestonesCount_eq]
    norm_num [MILESTONES]
  refine ⟨hpp s, ?_, rfl⟩
  intro h1 h2 h3 h4 h5 h6 h7
  rw [hpp s, hpp t]
  have hmono : ∀ (a b : Bool), (a = true → b = true) →
      (if a then 1 else 0 : Nat) ≤ if b then 1 else 0 := by decide
  have hnat : specMilestonesTrueCount s ≤ specMilestonesTrueCount t := by
    unfold specMilestonesTrueCount
    exact add_le_add (add_le_add (add_le_add (add_le_add (add_le_add (add_le_add
      (hmono _ _ h1) (hmono _ _ h2)) (hmono _ _ h3)) (hmono _ _ h4)) (hmono _ _ h5))
      (hmono _ _ h6)) (hmono _ _ h7)
  have hq : (specMilestonesTrueCount s : ℚ) ≤ (specMilestonesTrueCount t : ℚ) :=
    Nat.cast_le.mpr hnat
  gcongr

/-- Witness for C5: flipping the orientation and resume flags true from
the all-false status does not decrease the progress percentage. -/
theorem progress_percentage_c5_witness :
    ((sAllFalse.orientation = true → sC7.orientation = true) ∧
      (sAllFalse.resumeRebuilding = true → sC7.resumeRebuilding = true) ∧
      (sAllFalse.resumeConfirmed = true → sC7.resumeConfirmed = true) ∧
      (sAllFalse.portfolioBuildingAndConfirmed = true →
        sC7.portfolioBuildingAndConfirmed = true) ∧
      (sAllFalse.techDistributionAndExtension = true →
        sC7.techDistributionAndExtension = true) ∧
      (sAllFalse.cheatSheetBuiltOut = true → sC7.cheatSheetBuiltOut = true) ∧
      (sAllFalse.hasAppliedEnoughJobs = true → sC7.hasAppliedEnoughJobs = true)) ∧
    (computeNextCall sAllFalse []).progressPercentage ≤
      (computeNextCall sC7 []).progressPercentage :=
  ⟨⟨by decide, by decide, by decide, by decide, by decide, by decide, by decide⟩,
   (progress_percentage_c5 sAllFalse sC7 []).2.1 (by decide) (by decide) (by decide)
     (by decide) (by decide) (by decide) (by decide)⟩

/-- C8: when stage 1 is not completed but its number is scheduled, the
scan skips stage 1 and proceeds over stages 2..5 under the same rules; and
the scan never selects a stage whose number is in the scheduled set. -/
theorem scheduled_skip_c8 (s : UserStatus) (sched : List Nat) :
    (strTruthy s.firstMentorCallCompletedAt = false → sched.contains 1 = true →
      scanCalls s sched (calls s) =
        scanCalls s sched [call2 s, call3 s, call4 s, call5 s]) ∧
    (∀ nc : NextCall, scanCalls s sched (calls s) = some nc →
      sched.contains nc.call.number = false) := by
  constructor
  · intro h1 h2
    exact scanCalls_skip_scheduled s sched (call1 s) [call2 s, call3 s, call4 s, call5 s] h1 h2
  · intro nc h
    exact scanCalls_not_scheduled s sched _ nc h

/-- Witness for C8: with stage 1 scheduled on the all-false status, the
scan reduces to the scan of stages 2..5 and selects stage 2, whose number
is not scheduled. -/
theorem scheduled_skip_c8_witness :
    (strTruthy sAllFalse.firstMentorCallCompletedAt = false ∧
      ([1] : List Nat).contains 1 = true ∧
      scanCalls sAllFalse [1] (calls sAllFalse) =
        scanCalls sAllFalse [1] [call2 sAllFalse, call3 sAllFalse, call4 sAllFalse, call5 sAllFalse]) ∧
    (scanCalls sAllFalse [1] (calls sAllFalse) =
        some ⟨call2 sAllFalse, some (call2 sAllFalse).required⟩ ∧
      ([1] : List Nat).contains
        (NextCall.mk (call2 sAllFalse) (some (call2 sAllFalse).required)).call.number = false) :=
  ⟨⟨by decide, by decide, (scheduled_skip_c8 sAllFalse [1]).1 (by decide) (by decide)⟩,
   ⟨by decide, (scheduled_skip_c8 sAllFalse [1]).2
      (NextCall.mk (call2 sAllFalse) (some (call2 sAllFalse).required)) (by decide)⟩⟩

end Mentorque
